import Mathlib

/-
Verification of the cert-manager controller bootstrap and supervision
harness (cmd/controller/app/controller.go) against its natural-language
specification.

The Go source is shallowly embedded as follows.  Pure data (the options
structure and the shared controller context) becomes Lean structures with
the source's field names.  External collaborators that the file only calls
(Kubernetes client construction, resource-quantity parsing) are passed in
as explicit `Except`-valued parameters, so that every branch of the source
is represented.  The control flow of `Run` and of the supervisor closure
`run` is embedded as the sequence of observable actions the main goroutine
performs, and the per-worker goroutine bodies as a small-step function on a
supervision state.  The leader-election library (k8s.io/client-go) is not
part of this repository's source; the lease store it manipulates is
modelled from the specification where a claim needs it.
-/

namespace CertManager

/-- Name of the cluster-scoped controller, `clusterissuers.ControllerName`
(defined in pkg/controller/clusterissuers, outside this file; the
supervisor only compares against it). -/
def clusterissuersControllerName : String := "clusterissuers"

/-- Modelled from the spec: the package-default recursive nameserver list
`dnsutil.RecursiveNameservers` (pkg/issuer/acme/dns/util is not under
src/).  Only its identity matters to the claims, never its elements. -/
def RecursiveNameservers : List String := ["8.8.8.8:53", "8.8.4.4:53"]

/-- The options structure handed to `Run`
(cmd/controller/app/options.ControllerOptions), restricted to the fields
controller.go reads.  Durations are modelled as natural numbers of
nanoseconds. -/
structure ControllerOptions where
  APIServerHost : String
  EnabledControllers : List String
  Namespace : String
  LeaderElect : Bool
  LeaderElectionNamespace : String
  LeaderElectionLeaseDuration : Nat
  LeaderElectionRenewDeadline : Nat
  LeaderElectionRetryPeriod : Nat
  ACMEHTTP01SolverImage : String
  ACMEHTTP01SolverResourceRequestCPU : String
  ACMEHTTP01SolverResourceRequestMemory : String
  ACMEHTTP01SolverResourceLimitsCPU : String
  ACMEHTTP01SolverResourceLimitsMemory : String
  DNS01RecursiveNameservers : List String
  DNS01RecursiveNameserversOnly : Bool
  ClusterIssuerAmbientCredentials : Bool
  IssuerAmbientCredentials : Bool
  ClusterResourceNamespace : String
  RenewBeforeExpiryDuration : Nat
  DefaultIssuerName : String
  DefaultIssuerKind : String
  DefaultAutoCertificateAnnotations : List String
  DefaultACMEIssuerChallengeType : String
  DefaultACMEIssuerDNS01ProviderName : String
  EnableCertificateOwnerRef : Bool
deriving DecidableEq

/-- A parsed resource quantity (`resource.Quantity`).  Its internals are
never inspected by controller.go, so it is opaque here. -/
def Quantity : Type := Unit

instance : DecidableEq Quantity := fun _ _ => isTrue rfl

/-- `controller.ACMEOptions` as populated by `buildControllerContext`. -/
structure ACMEOptions where
  HTTP01SolverImage : String
  HTTP01SolverResourceRequestCPU : Quantity
  HTTP01SolverResourceRequestMemory : Quantity
  HTTP01SolverResourceLimitsCPU : Quantity
  HTTP01SolverResourceLimitsMemory : Quantity
  DNS01CheckAuthoritative : Bool
  DNS01Nameservers : List String
deriving DecidableEq

/-- `controller.IssuerOptions` as populated by `buildControllerContext`. -/
structure IssuerOptions where
  ClusterIssuerAmbientCredentials : Bool
  IssuerAmbientCredentials : Bool
  ClusterResourceNamespace : String
  RenewBeforeExpiryDuration : Nat
deriving DecidableEq

/-- `controller.IngressShimOptions` as populated by
`buildControllerContext`. -/
structure IngressShimOptions where
  DefaultIssuerName : String
  DefaultIssuerKind : String
  DefaultAutoCertificateAnnotations : List String
  DefaultACMEIssuerChallengeType : String
  DefaultACMEIssuerDNS01ProviderName : String
deriving DecidableEq

/-- `controller.CertificateOptions` as populated by
`buildControllerContext`. -/
structure CertificateOptions where
  EnableOwnerRef : Bool
deriving DecidableEq

/-- The shared `controller.Context`.  Client handles, the event recorder
and the informer factories are opaque capabilities (controller.go only
constructs and forwards them), modelled as `Unit`. -/
structure Context where
  Client : Unit
  CMClient : Unit
  Recorder : Unit
  KubeSharedInformerFactory : Unit
  SharedInformerFactory : Unit
  Namespace : String
  ACMEOptions : ACMEOptions
  IssuerOptions : IssuerOptions
  IngressShimOptions : IngressShimOptions
  CertificateOptions : CertificateOptions
deriving DecidableEq

/-- Results of the external collaborators `buildControllerContext` and
`Run` call: `kube.KubeConfig`, `clientset.NewForConfig`,
`kubernetes.NewForConfig` (twice, the second for the leader-election
client) and `resource.ParseQuantity`.  Each is given by its outcome, so
every failure branch of the source is reachable in the model. -/
structure Externals where
  KubeConfig : Except String Unit
  IntClient : Except String Unit
  KubeClient : Except String Unit
  LeaderElectionClient : Except String Unit
  ParseQuantity : String → Except String Quantity

/-- Shallow embedding of `buildControllerContext` (controller.go lines
114-208): each fallible call is matched in source order and wrapped in the
source's error message; the nameserver default and the
`DNS01CheckAuthoritative` negation are taken verbatim from the source. -/
def buildControllerContext (ext : Externals) (opts : ControllerOptions) :
    Except String (Context × Unit) :=
  match ext.KubeConfig with
  | Except.error e => Except.error ("error creating rest config: " ++ e)
  | Except.ok kubeCfg =>
    match ext.IntClient with
    | Except.error e => Except.error ("error creating internal group client: " ++ e)
    | Except.ok _intcl =>
      match ext.KubeClient with
      | Except.error e => Except.error ("error creating kubernetes client: " ++ e)
      | Except.ok _cl =>
        let nameservers :=
          if opts.DNS01RecursiveNameservers.length = 0 then
            RecursiveNameservers
          else
            opts.DNS01RecursiveNameservers
        match ext.ParseQuantity opts.ACMEHTTP01SolverResourceRequestCPU with
        | Except.error e =>
            Except.error ("error parsing ACMEHTTP01SolverResourceRequestCPU: " ++ e)
        | Except.ok reqCPU =>
          match ext.ParseQuantity opts.ACMEHTTP01SolverResourceRequestMemory with
          | Except.error e =>
              Except.error ("error parsing ACMEHTTP01SolverResourceRequestMemory: " ++ e)
          | Except.ok reqMem =>
            match ext.ParseQuantity opts.ACMEHTTP01SolverResourceLimitsCPU with
            | Except.error e =>
                Except.error ("error parsing ACMEHTTP01SolverResourceLimitsCPU: " ++ e)
            | Except.ok limCPU =>
              match ext.ParseQuantity opts.ACMEHTTP01SolverResourceLimitsMemory with
              | Except.error e =>
                  Except.error ("error parsing ACMEHTTP01SolverResourceLimitsMemory: " ++ e)
              | Except.ok limMem =>
                Except.ok
                  ({ Client := ()
                     CMClient := ()
                     Recorder := ()
                     KubeSharedInformerFactory := ()
                     SharedInformerFactory := ()
                     Namespace := opts.Namespace
                     ACMEOptions :=
                       { HTTP01SolverImage := opts.ACMEHTTP01SolverImage
                         HTTP01SolverResourceRequestCPU := reqCPU
                         HTTP01SolverResourceRequestMemory := reqMem
                         HTTP01SolverResourceLimitsCPU := limCPU
                         HTTP01SolverResourceLimitsMemory := limMem
                         DNS01CheckAuthoritative := !opts.DNS01RecursiveNameserversOnly
                         DNS01Nameservers := nameservers }
                     IssuerOptions :=
                       { ClusterIssuerAmbientCredentials := opts.ClusterIssuerAmbientCredentials
                         IssuerAmbientCredentials := opts.IssuerAmbientCredentials
                         ClusterResourceNamespace := opts.ClusterResourceNamespace
                         RenewBeforeExpiryDuration := opts.RenewBeforeExpiryDuration }
                     IngressShimOptions :=
                       { DefaultIssuerName := opts.DefaultIssuerName
                         DefaultIssuerKind := opts.DefaultIssuerKind
                         DefaultAutoCertificateAnnotations := opts.DefaultAutoCertificateAnnotations
                         DefaultACMEIssuerChallengeType := opts.DefaultACMEIssuerChallengeType
                         DefaultACMEIssuerDNS01ProviderName := opts.DefaultACMEIssuerDNS01ProviderName }
                     CertificateOptions :=
                       { EnableOwnerRef := opts.EnableCertificateOwnerRef } },
                   kubeCfg)

/-- Observable actions of the main goroutine of `Run` and of the
supervisor closure `run`.  `registerWorker` covers the `wg.Add(1)` plus
`go ...` pair for one worker (the metrics exporter is the worker named
"metrics"); `fatalLog` is `glog.Fatalf`, which terminates the process. -/
inductive Action where
  | fatalLog (msg : String)
  | registerWorker (n : String)
  | startSharedInformerFactory
  | startKubeSharedInformerFactory
  | waitWorkers
  | invokeRun
  | buildLeaderElectionClient
  | acquireLease
deriving DecidableEq

/-- The controller loop of `run` (lines 66-91): for each known name in
registry order, skip it when not enabled, skip the clusterissuers
controller when the namespace scope is non-empty, otherwise register a
worker for it. -/
def registrationLoop (enabled : List String) (ns : String) : List String → List Action
  | [] => []
  | n :: rest =>
    if !(enabled.contains n) then
      registrationLoop enabled ns rest
    else if ns != "" && n == clusterissuersControllerName then
      registrationLoop enabled ns rest
    else
      Action.registerWorker n :: registrationLoop enabled ns rest

/-- The names of the controller workers the supervisor starts, in registry
order: the same filter as `registrationLoop`. -/
def startedControllers (enabled : List String) (ns : String) : List String → List String
  | [] => []
  | n :: rest =>
    if !(enabled.contains n) then
      startedControllers enabled ns rest
    else if ns != "" && n == clusterissuersControllerName then
      startedControllers enabled ns rest
    else
      n :: startedControllers enabled ns rest

/-- Statement-order trace of the supervisor closure `run` (lines 59-97):
register the metrics worker, run the registration loop, start both shared
informer factories, block on `wg.Wait()`, and — once the wait returns —
log fatally. -/
def supervisorTrace (opts : ControllerOptions) (ns : String) (known : List String) :
    List Action :=
  Action.registerWorker "metrics" ::
    (registrationLoop opts.EnabledControllers ns known ++
      [Action.startSharedInformerFactory, Action.startKubeSharedInformerFactory,
       Action.waitWorkers, Action.fatalLog "Control loops exited"])

/-- Statement-order trace of `Run` (lines 52-112): build the context,
fatally log on failure; with leader election disabled invoke `run`
synchronously; otherwise build the leader-election client and hand `run`
to the elector, whose first act is attempting lease acquisition. -/
def RunTrace (ext : Externals) (opts : ControllerOptions) (known : List String) :
    List Action :=
  match buildControllerContext ext opts with
  | Except.error e => [Action.fatalLog e]
  | Except.ok (ctx, _kubeCfg) =>
    if !opts.LeaderElect then
      Action.invokeRun :: supervisorTrace opts ctx.Namespace known
    else
      Action.buildLeaderElectionClient ::
        (match ext.LeaderElectionClient with
         | Except.error e =>
             [Action.fatalLog ("error creating leader election client: " ++ e)]
         | Except.ok _ => [Action.acquireLease])

/-- One invocation record of a controller runnable by its worker
goroutine. -/
structure WorkerRun where
  name : String
  width : Nat
  result : Option String
deriving DecidableEq

/-- Body of the per-controller worker goroutine (lines 80-90): it sets
`workers := 5` and invokes the runnable at that width; `result` is the
error the runnable returned (`none` for a nil error). -/
def workerGoroutine (n : String) (fn : Nat → Option String) : WorkerRun :=
  let workers := 5
  { name := n, width := workers, result := fn workers }

/-- The invocation records of every controller worker the supervisor
starts, given the registry's runnables. -/
def supervisorWorkerRuns (registry : String → Nat → Option String)
    (enabled : List String) (ns : String) (known : List String) : List WorkerRun :=
  (startedControllers enabled ns known).map (fun n => workerGoroutine n (registry n))

/-- Whether the process is still running or has been terminated by
`glog.Fatalf` with the given message. -/
inductive ProcStatus where
  | running
  | fatal (msg : String)
deriving DecidableEq

/-- Supervision state while `run` blocks in `wg.Wait()`: the names of the
started workers that have not yet returned, and the process status. -/
structure SupState where
  running : List String
  status : ProcStatus
deriving DecidableEq

/-- Effect of one worker returning from its runnable (lines 80-90 for the
controller goroutines, lines 62-65 for the metrics goroutine, line 95-96
for the main goroutine's wait): a non-nil error triggers `glog.Fatalf`
immediately; a nil return only decrements the wait group, and only when
the last worker has returned does `wg.Wait()` unblock, after which the
main goroutine logs fatally. -/
def workerReturnStep (s : SupState) (n : String) (res : Option String) : SupState :=
  match s.status with
  | ProcStatus.fatal _ => s
  | ProcStatus.running =>
    if !(s.running.contains n) then
      s
    else
      match res with
      | some e =>
          { running := s.running.erase n
            status := ProcStatus.fatal ("error running " ++ n ++ " controller: " ++ e) }
      | none =>
          let rem := s.running.erase n
          if rem.isEmpty then
            { running := rem, status := ProcStatus.fatal "Control loops exited" }
          else
            { running := rem, status := ProcStatus.running }

/-- Supervision state right after `run` has registered every worker: the
metrics worker plus every started controller is outstanding. -/
def initialSupState (enabled : List String) (ns : String) (known : List String) :
    SupState :=
  { running := "metrics" :: startedControllers enabled ns known
    status := ProcStatus.running }

/-- Sequential effect of a list of actions on the process status:
`glog.Fatalf` terminates the process, so nothing after a `fatalLog` runs. -/
def applyActions : ProcStatus → List Action → ProcStatus
  | ProcStatus.fatal m, _ => ProcStatus.fatal m
  | s, [] => s
  | ProcStatus.running, Action.fatalLog m :: _ => ProcStatus.fatal m
  | ProcStatus.running, _ :: rest => applyActions ProcStatus.running rest

/-- The callback pair handed to the leader elector: `OnStartedLeading` is
the opaque `run` closure; `OnStoppedLeading` is embedded by the action
list its body executes. -/
structure LeaderCallbacks where
  OnStartedLeading : Unit
  OnStoppedLeading : List Action

/-- The leader-election configuration `startLeaderElection` assembles
(lines 210-243): lock key, identity, timing parameters and callbacks. -/
structure LeaderElectionConfig where
  LockNamespace : String
  LockName : String
  Identity : String
  LeaseDuration : Nat
  RenewDeadline : Nat
  RetryPeriod : Nat
  Callbacks : LeaderCallbacks

/-- Shallow embedding of `startLeaderElection` (lines 210-243), given the
hostname the identity is derived from: builds the ConfigMap lock reference
and the elector configuration, with `OnStoppedLeading` being exactly one
fatal log. -/
def startLeaderElection (opts : ControllerOptions) (hostname : String) :
    LeaderElectionConfig :=
  { LockNamespace := opts.LeaderElectionNamespace
    LockName := "cert-manager-controller"
    Identity := hostname ++ "-external-cert-manager-controller"
    LeaseDuration := opts.LeaderElectionLeaseDuration
    RenewDeadline := opts.LeaderElectionRenewDeadline
    RetryPeriod := opts.LeaderElectionRetryPeriod
    Callbacks :=
      { OnStartedLeading := ()
        OnStoppedLeading := [Action.fatalLog "leaderelection lost"] } }

/-- Process status after the elector reports leadership loss: the
`OnStoppedLeading` callback body runs on a live process. -/
def onLeadershipLost (cfg : LeaderElectionConfig) : ProcStatus :=
  applyActions ProcStatus.running cfg.Callbacks.OnStoppedLeading

/-- Modelled from the spec: the persisted state of the distributed lock
(the `LeaseRecord` of §3; the leader-election library and its ConfigMap
lock store live in k8s.io/client-go, not under src/).  Times are discrete
instants. -/
structure LeaderElectionRecord where
  HolderIdentity : String
  AcquireTime : Nat
  RenewTime : Nat
deriving DecidableEq

/-- Modelled from the spec: one optimistic compare-and-set attempt against
the single lease record keyed by the lock's namespace and name (§5:
"optimistic compare-and-set at the control-plane-store layer").  An
instance acquires an absent or expired lease, renews its own, and leaves a
live foreign lease unchanged. -/
def tryAcquireOrRenew (leaseDuration : Nat) (id : String) (now : Nat) :
    Option LeaderElectionRecord → Option LeaderElectionRecord
  | none => some { HolderIdentity := id, AcquireTime := now, RenewTime := now }
  | some r =>
    if r.HolderIdentity = id then
      some { r with RenewTime := now }
    else if r.RenewTime + leaseDuration ≤ now then
      some { HolderIdentity := id, AcquireTime := now, RenewTime := now }
    else
      some r

/-- Modelled from the spec: an instance is `Leading` at an instant when it
is the recorded holder of the lease and the lease has not expired (§3:
"holds an active, non-expired LeaseRecord"). -/
def Leading (leaseDuration : Nat) (store : Option LeaderElectionRecord)
    (id : String) (now : Nat) : Prop :=
  ∃ r, store = some r ∧ r.HolderIdentity = id ∧ now < r.RenewTime + leaseDuration

/-- The four resource-quantity fields of the options structure that
`buildControllerContext` parses. -/
inductive SolverQuantityField where
  | requestCPU
  | requestMemory
  | limitsCPU
  | limitsMemory
deriving DecidableEq

/-- The Go field name of a solver resource-quantity field, as it appears
in the parse error messages. -/
def solverQuantityFieldName : SolverQuantityField → String
  | SolverQuantityField.requestCPU => "ACMEHTTP01SolverResourceRequestCPU"
  | SolverQuantityField.requestMemory => "ACMEHTTP01SolverResourceRequestMemory"
  | SolverQuantityField.limitsCPU => "ACMEHTTP01SolverResourceLimitsCPU"
  | SolverQuantityField.limitsMemory => "ACMEHTTP01SolverResourceLimitsMemory"

/-- The string value of a solver resource-quantity field in an options
structure. -/
def solverQuantityFieldValue (opts : ControllerOptions) : SolverQuantityField → String
  | SolverQuantityField.requestCPU => opts.ACMEHTTP01SolverResourceRequestCPU
  | SolverQuantityField.requestMemory => opts.ACMEHTTP01SolverResourceRequestMemory
  | SolverQuantityField.limitsCPU => opts.ACMEHTTP01SolverResourceLimitsCPU
  | SolverQuantityField.limitsMemory => opts.ACMEHTTP01SolverResourceLimitsMemory

/-- Externals fixture in which every collaborator succeeds. -/
def extOK : Externals :=
  { KubeConfig := Except.ok ()
    IntClient := Except.ok ()
    KubeClient := Except.ok ()
    LeaderElectionClient := Except.ok ()
    ParseQuantity := fun _ => Except.ok () }

/-- Externals fixture in which parsing the string "10x" fails and
everything else succeeds. -/
def extBadCPU : Externals :=
  { KubeConfig := Except.ok ()
    IntClient := Except.ok ()
    KubeClient := Except.ok ()
    LeaderElectionClient := Except.ok ()
    ParseQuantity := fun s =>
      if s = "10x" then Except.error "quantities must match the regular expression"
      else Except.ok () }

/-- Options fixture: cluster-wide scope, leader election disabled, all
quantity strings valid, no configured nameservers. -/
def optsBase : ControllerOptions :=
  { APIServerHost := ""
    EnabledControllers := ["issuers", "certificates", "clusterissuers", "ingress-shim"]
    Namespace := ""
    LeaderElect := false
    LeaderElectionNamespace := "kube-system"
    LeaderElectionLeaseDuration := 60
    LeaderElectionRenewDeadline := 40
    LeaderElectionRetryPeriod := 15
    ACMEHTTP01SolverImage := "solver-image"
    ACMEHTTP01SolverResourceRequestCPU := "10m"
    ACMEHTTP01SolverResourceRequestMemory := "64Mi"
    ACMEHTTP01SolverResourceLimitsCPU := "100m"
    ACMEHTTP01SolverResourceLimitsMemory := "64Mi"
    DNS01RecursiveNameservers := []
    DNS01RecursiveNameserversOnly := false
    ClusterIssuerAmbientCredentials := false
    IssuerAmbientCredentials := false
    ClusterResourceNamespace := "cert-manager"
    RenewBeforeExpiryDuration := 720
    DefaultIssuerName := ""
    DefaultIssuerKind := "Issuer"
    DefaultAutoCertificateAnnotations := []
    DefaultACMEIssuerChallengeType := "http01"
    DefaultACMEIssuerDNS01ProviderName := ""
    EnableCertificateOwnerRef := false }

/-- Options fixture: `optsBase` with an unparseable request-CPU quantity. -/
def optsBadCPU : ControllerOptions :=
  { optsBase with ACMEHTTP01SolverResourceRequestCPU := "10x" }

/-- The shared context `buildControllerContext extOK optsBase` produces. -/
def ctxBase : Context :=
  { Client := ()
    CMClient := ()
    Recorder := ()
    KubeSharedInformerFactory := ()
    SharedInformerFactory := ()
    Namespace := ""
    ACMEOptions :=
      { HTTP01SolverImage := "solver-image"
        HTTP01SolverResourceRequestCPU := ()
        HTTP01SolverResourceRequestMemory := ()
        HTTP01SolverResourceLimitsCPU := ()
        HTTP01SolverResourceLimitsMemory := ()
        DNS01CheckAuthoritative := true
        DNS01Nameservers := RecursiveNameservers }
    IssuerOptions :=
      { ClusterIssuerAmbientCredentials := false
        IssuerAmbientCredentials := false
        ClusterResourceNamespace := "cert-manager"
        RenewBeforeExpiryDuration := 720 }
    IngressShimOptions :=
      { DefaultIssuerName := ""
        DefaultIssuerKind := "Issuer"
        DefaultAutoCertificateAnnotations := []
        DefaultACMEIssuerChallengeType := "http01"
        DefaultACMEIssuerDNS01ProviderName := "" }
    CertificateOptions := { EnableOwnerRef := false } }

/-- Registry fixture whose runnables all return a nil error. -/
def registryNil : String → Nat → Option String := fun _ _ => none

/-- The filter of the registration loop written as a `List.filter`, for
reasoning about membership. -/
theorem startedControllers_eq_filter (enabled : List String) (ns : String)
    (known : List String) :
    startedControllers enabled ns known =
      known.filter
        (fun n => enabled.contains n && !(ns != "" && n == clusterissuersControllerName)) := by
  induction known with
  | nil => rfl
  | cons k rest ih =>
    simp only [startedControllers, List.filter]
    cases hk : enabled.contains k <;>
      cases hns : (ns != "" && (k == clusterissuersControllerName)) <;>
        simp [hk, hns, ih]

/-- The registration loop registers exactly the started controllers, in
order. -/
theorem registrationLoop_eq_map (enabled : List String) (ns : String)
    (known : List String) :
    registrationLoop enabled ns known =
      (startedControllers enabled ns known).map Action.registerWorker := by
  induction known with
  | nil => rfl
  | cons k rest ih =>
    simp only [registrationLoop, startedControllers]
    cases hk : enabled.contains k <;>
      cases hns : (ns != "" && (k == clusterissuersControllerName)) <;>
        simp [hk, hns, ih]

/-- Every action the registration loop emits is a worker registration. -/
theorem registrationLoop_only_registers (enabled : List String) (ns : String)
    (known : List String) :
    ∀ a ∈ registrationLoop enabled ns known, ∃ n, a = Action.registerWorker n := by
  intro a ha
  rw [registrationLoop_eq_map] at ha
  obtain ⟨n, -, rfl⟩ := List.mem_map.mp ha
  exact ⟨n, rfl⟩

/-- C2: the set of controller workers the supervisor starts equals exactly
the registry's known names intersected with the enabled set, minus the
clusterissuers controller whenever the namespace scope is non-empty; in
particular, with a non-empty namespace, clusterissuers is never started
even when enabled. -/
theorem started_controllers_spec (enabled : List String) (ns : String)
    (known : List String) :
    (∀ n, n ∈ startedControllers enabled ns known ↔
        n ∈ known ∧ n ∈ enabled ∧ ¬(ns ≠ "" ∧ n = clusterissuersControllerName)) ∧
    (ns ≠ "" → clusterissuersControllerName ∉ startedControllers enabled ns known) := by
  have hmem : ∀ n, n ∈ startedControllers enabled ns known ↔
      n ∈ known ∧ n ∈ enabled ∧ ¬(ns ≠ "" ∧ n = clusterissuersControllerName) := by
    intro n
    rw [startedControllers_eq_filter, List.mem_filter]
    simp only [Bool.and_eq_true, List.elem_iff, Bool.not_eq_true', Bool.and_eq_false_iff,
      bne_eq_false_iff_eq, beq_eq_false_iff_ne, ne_eq, beq_iff_eq, not_and]
    constructor
    · rintro ⟨hk, he, hc⟩
      refine ⟨hk, he, fun hns => ?_⟩
      rcases hc with h | h
      · exact absurd h hns
      · exact h
    · rintro ⟨hk, he, hc⟩
      refine ⟨hk, he, ?_⟩
      by_cases hns : ns = ""
      · exact Or.inl hns
      · exact Or.inr (hc hns)
  refine ⟨hmem, fun hns hmemc => ?_⟩
  have := ((hmem clusterissuersControllerName).mp hmemc).2.2
  exact this ⟨hns, rfl⟩

/-- C2 witness: with namespace "team-a" and clusterissuers enabled and
known, clusterissuers is not started. -/
theorem started_controllers_spec_witness :
    ("team-a" : String) ≠ "" ∧
    clusterissuersControllerName ∉
      startedControllers ["clusterissuers", "issuers"] "team-a"
        ["issuers", "clusterissuers"] :=
  ⟨by decide,
    (started_controllers_spec ["clusterissuers", "issuers"] "team-a"
      ["issuers", "clusterissuers"]).2 (by decide)⟩

/-- C4: in every execution of the supervisor closure `run`, both shared
informer factories are started exactly once, after every worker
registration and before the supervisor blocks in `wg.Wait()`. -/
theorem informer_factories_start_once_after_registration
    (opts : ControllerOptions) (ns : String) (known : List String) :
    (∃ pre, supervisorTrace opts ns known =
        pre ++ [Action.startSharedInformerFactory, Action.startKubeSharedInformerFactory,
                Action.waitWorkers, Action.fatalLog "Control loops exited"] ∧
      ∀ a ∈ pre, ∃ n, a = Action.registerWorker n) ∧
    (supervisorTrace opts ns known).count Action.startSharedInformerFactory = 1 ∧
    (supervisorTrace opts ns known).count Action.startKubeSharedInformerFactory = 1 := by
  have hpre : ∀ a ∈ Action.registerWorker "metrics" ::
      registrationLoop opts.EnabledControllers ns known, ∃ n, a = Action.registerWorker n := by
    intro a ha
    rcases List.mem_cons.mp ha with h | h
    · exact ⟨"metrics", h⟩
    · exact registrationLoop_only_registers _ _ _ a h
  have htr : supervisorTrace opts ns known =
      (Action.registerWorker "metrics" :: registrationLoop opts.EnabledControllers ns known) ++
        [Action.startSharedInformerFactory, Action.startKubeSharedInformerFactory,
         Action.waitWorkers, Action.fatalLog "Control loops exited"] := by
    simp [supervisorTrace]
  have hcount : ∀ b : Action,
      (∀ n, b ≠ Action.registerWorker n) →
      (supervisorTrace opts ns known).count b =
        ([Action.startSharedInformerFactory, Action.startKubeSharedInformerFactory,
          Action.waitWorkers, Action.fatalLog "Control loops exited"] : List Action).count b := by
    intro b hb
    rw [htr, List.count_append]
    have : (Action.registerWorker "metrics" ::
        registrationLoop opts.EnabledControllers ns known).count b = 0 := by
      rw [List.count_eq_zero]
      intro hmem
      obtain ⟨n, rfl⟩ := hpre b hmem
      exact hb n rfl
    rw [this, Nat.zero_add]
  refine ⟨⟨_, htr, hpre⟩, ?_, ?_⟩
  · rw [hcount Action.startSharedInformerFactory (by intro n h; cases h)]
    decide
  · rw [hcount Action.startKubeSharedInformerFactory (by intro n h; cases h)]
    decide

/-- C7: every controller worker the supervisor starts invokes its runnable
with a concurrency width of exactly 5 internal workers. -/
theorem controller_concurrency_width_five
    (registry : String → Nat → Option String) (enabled : List String)
    (ns : String) (known : List String) :
    ∀ r ∈ supervisorWorkerRuns registry enabled ns known,
      r.width = 5 ∧ r.result = registry r.name 5 := by
  intro r hr
  obtain ⟨n, -, rfl⟩ := List.mem_map.mp hr
  exact ⟨rfl, rfl⟩

/-- C7 witness: the single worker started for the "issuers" controller is
invoked at width 5. -/
theorem controller_concurrency_width_five_witness :
    (workerGoroutine "issuers" (registryNil "issuers")).width = 5 ∧
    (workerGoroutine "issuers" (registryNil "issuers")).result =
      registryNil (workerGoroutine "issuers" (registryNil "issuers")).name 5 :=
  controller_concurrency_width_five registryNil ["issuers"] "" ["issuers"]
    (workerGoroutine "issuers" (registryNil "issuers")) (by decide)

/-- Inversion of a successful `buildControllerContext`: every collaborator
succeeded and the context is the record built on lines 175-207. -/
theorem buildControllerContext_ok (ext : Externals) (opts : ControllerOptions)
    (ctx : Context) (cfg : Unit)
    (h : buildControllerContext ext opts = Except.ok (ctx, cfg)) :
    (∀ f, ∃ q, ext.ParseQuantity (solverQuantityFieldValue opts f) = Except.ok q) ∧
    ctx.Namespace = opts.Namespace ∧
    ctx.ACMEOptions.DNS01CheckAuthoritative = !opts.DNS01RecursiveNameserversOnly ∧
    ctx.ACMEOptions.DNS01Nameservers =
      (if opts.DNS01RecursiveNameservers.length = 0 then RecursiveNameservers
       else opts.DNS01RecursiveNameservers) := by
  unfold buildControllerContext at h
  cases hkc : ext.KubeConfig with
  | error e => rw [hkc] at h; cases h
  | ok u1 =>
    rw [hkc] at h
    cases hic : ext.IntClient with
    | error e => rw [hic] at h; cases h
    | ok u2 =>
      rw [hic] at h
      cases hcc : ext.KubeClient with
      | error e => rw [hcc] at h; cases h
      | ok u3 =>
        rw [hcc] at h
        cases h1 : ext.ParseQuantity opts.ACMEHTTP01SolverResourceRequestCPU with
        | error e => rw [h1] at h; cases h
        | ok q1 =>
          rw [h1] at h
          cases h2 : ext.ParseQuantity opts.ACMEHTTP01SolverResourceRequestMemory with
          | error e => rw [h2] at h; cases h
          | ok q2 =>
            rw [h2] at h
            cases h3 : ext.ParseQuantity opts.ACMEHTTP01SolverResourceLimitsCPU with
            | error e => rw [h3] at h; cases h
            | ok q3 =>
              rw [h3] at h
              cases h4 : ext.ParseQuantity opts.ACMEHTTP01SolverResourceLimitsMemory with
              | error e => rw [h4] at h; cases h
              | ok q4 =>
                rw [h4] at h
                simp only [Except.ok.injEq, Prod.mk.injEq] at h
                obtain ⟨hctx, -⟩ := h
                subst hctx
                refine ⟨?_, rfl, rfl, rfl⟩
                intro f
                cases f
                · exact ⟨q1, h1⟩
                · exact ⟨q2, h2⟩
                · exact ⟨q3, h3⟩
                · exact ⟨q4, h4⟩

/-- C9: on a successful build, the context's DNS01 nameservers are the
package default when the configured list is empty, and the configured list
otherwise. -/
theorem dns01_nameservers_default (ext : Externals) (opts : ControllerOptions)
    (ctx : Context) (cfg : Unit)
    (h : buildControllerContext ext opts = Except.ok (ctx, cfg)) :
    ctx.ACMEOptions.DNS01Nameservers =
      (if opts.DNS01RecursiveNameservers = [] then RecursiveNameservers
       else opts.DNS01RecursiveNameservers) := by
  have hn := (buildControllerContext_ok ext opts ctx cfg h).2.2.2
  rw [hn]
  by_cases hl : opts.DNS01RecursiveNameservers = []
  · simp [hl]
  · rw [if_neg hl, if_neg]
    simpa [List.length_eq_zero] using hl

/-- C9 witness: with no configured nameservers, the built context carries
the package-default list. -/
theorem dns01_nameservers_default_witness :
    ctxBase.ACMEOptions.DNS01Nameservers =
      (if optsBase.DNS01RecursiveNameservers = [] then RecursiveNameservers
       else optsBase.DNS01RecursiveNameservers) :=
  dns01_nameservers_default extOK optsBase ctxBase () rfl

/-- C10: on a successful build, the context's DNS01CheckAuthoritative flag
is the boolean negation of the DNS01RecursiveNameserversOnly option. -/
theorem dns01_check_authoritative_negation (ext : Externals)
    (opts : ControllerOptions) (ctx : Context) (cfg : Unit)
    (h : buildControllerContext ext opts = Except.ok (ctx, cfg)) :
    ctx.ACMEOptions.DNS01CheckAuthoritative = !opts.DNS01RecursiveNameserversOnly :=
  (buildControllerContext_ok ext opts ctx cfg h).2.2.1

/-- C10 witness: with DNS01RecursiveNameserversOnly set to false, the
built context checks authoritatively. -/
theorem dns01_check_authoritative_negation_witness :
    ctxBase.ACMEOptions.DNS01CheckAuthoritative = !optsBase.DNS01RecursiveNameserversOnly :=
  dns01_check_authoritative_negation extOK optsBase ctxBase () rfl

/-- C3: all four solver resource-quantity strings are parsed inside
`buildControllerContext`; if any fails to parse (with the connection and
client steps succeeding), the build returns an error naming an offending
field, and the trace of `Run` registers no worker, never invokes the
supervisor and never attempts lease acquisition; on a successful build all
four strings parsed. -/
theorem quantity_parse_failure_aborts_startup (ext : Externals)
    (opts : ControllerOptions) (known : List String)
    (hk : ext.KubeConfig = Except.ok ()) (hi : ext.IntClient = Except.ok ())
    (hc : ext.KubeClient = Except.ok ()) :
    ((∃ f e, ext.ParseQuantity (solverQuantityFieldValue opts f) = Except.error e) →
      (∃ f e, ext.ParseQuantity (solverQuantityFieldValue opts f) = Except.error e ∧
        buildControllerContext ext opts =
          Except.error ("error parsing " ++ solverQuantityFieldName f ++ ": " ++ e)) ∧
      (∀ n, Action.registerWorker n ∉ RunTrace ext opts known) ∧
      Action.invokeRun ∉ RunTrace ext opts known ∧
      Action.acquireLease ∉ RunTrace ext opts known) ∧
    (∀ ctx cfg, buildControllerContext ext opts = Except.ok (ctx, cfg) →
      ∀ f, ∃ q, ext.ParseQuantity (solverQuantityFieldValue opts f) = Except.ok q) := by
  have habort : ∀ msg, buildControllerContext ext opts = Except.error msg →
      (∀ n, Action.registerWorker n ∉ RunTrace ext opts known) ∧
      Action.invokeRun ∉ RunTrace ext opts known ∧
      Action.acquireLease ∉ RunTrace ext opts known := by
    intro msg hmsg
    have htr : RunTrace ext opts known = [Action.fatalLog msg] := by
      simp [RunTrace, hmsg]
    rw [htr]
    refine ⟨fun n hmem => ?_, fun hmem => ?_, fun hmem => ?_⟩ <;>
      simp_all
  refine ⟨?_, fun ctx cfg h => (buildControllerContext_ok ext opts ctx cfg h).1⟩
  intro hbad
  cases h1 : ext.ParseQuantity opts.ACMEHTTP01SolverResourceRequestCPU with
  | error e =>
    have hb : buildControllerContext ext opts =
        Except.error ("error parsing ACMEHTTP01SolverResourceRequestCPU: " ++ e) := by
      simp [buildControllerContext, hk, hi, hc, h1]
    exact ⟨⟨SolverQuantityField.requestCPU, e, h1, hb⟩, habort _ hb⟩
  | ok q1 =>
    cases h2 : ext.ParseQuantity opts.ACMEHTTP01SolverResourceRequestMemory with
    | error e =>
      have hb : buildControllerContext ext opts =
          Except.error ("error parsing ACMEHTTP01SolverResourceRequestMemory: " ++ e) := by
        simp [buildControllerContext, hk, hi, hc, h1, h2]
      exact ⟨⟨SolverQuantityField.requestMemory, e, h2, hb⟩, habort _ hb⟩
    | ok q2 =>
      cases h3 : ext.ParseQuantity opts.ACMEHTTP01SolverResourceLimitsCPU with
      | error e =>
        have hb : buildControllerContext ext opts =
            Except.error ("error parsing ACMEHTTP01SolverResourceLimitsCPU: " ++ e) := by
          simp [buildControllerContext, hk, hi, hc, h1, h2, h3]
        exact ⟨⟨SolverQuantityField.limitsCPU, e, h3, hb⟩, habort _ hb⟩
      | ok q3 =>
        cases h4 : ext.ParseQuantity opts.ACMEHTTP01SolverResourceLimitsMemory with
        | error e =>
          have hb : buildControllerContext ext opts =
              Except.error ("error parsing ACMEHTTP01SolverResourceLimitsMemory: " ++ e) := by
            simp [buildControllerContext, hk, hi, hc, h1, h2, h3, h4]
          exact ⟨⟨SolverQuantityField.limitsMemory, e, h4, hb⟩, habort _ hb⟩
        | ok q4 =>
          exfalso
          obtain ⟨f, e, hf⟩ := hbad
          cases f <;> simp_all [solverQuantityFieldValue]

/-- C3 witness: with an unparseable request-CPU quantity, `Run` never
invokes the supervisor closure. -/
theorem quantity_parse_failure_aborts_startup_witness :
    Action.invokeRun ∉ RunTrace extBadCPU optsBadCPU ["issuers"] :=
  ((quantity_parse_failure_aborts_startup extBadCPU optsBadCPU ["issuers"]
      rfl rfl rfl).1
    ⟨SolverQuantityField.requestCPU, "quantities must match the regular expression",
      rfl⟩).2.2.1

/-- C5: with the leader-election toggle disabled and a successful context
build, `Run` invokes the supervisor closure directly and synchronously,
and the trace never builds a leader-election client nor attempts lease
acquisition. -/
theorem no_leader_election_when_disabled (ext : Externals)
    (opts : ControllerOptions) (known : List String) (ctx : Context) (cfg : Unit)
    (h : buildControllerContext ext opts = Except.ok (ctx, cfg))
    (hle : opts.LeaderElect = false) :
    RunTrace ext opts known = Action.invokeRun :: supervisorTrace opts ctx.Namespace known ∧
    Action.buildLeaderElectionClient ∉ RunTrace ext opts known ∧
    Action.acquireLease ∉ RunTrace ext opts known := by
  have htr : RunTrace ext opts known =
      Action.invokeRun :: supervisorTrace opts ctx.Namespace known := by
    simp [RunTrace, h, hle]
  have hsup : ∀ a, a ∈ supervisorTrace opts ctx.Namespace known →
      a = Action.buildLeaderElectionClient ∨ a = Action.acquireLease → False := by
    intro a hmem hor
    simp only [supervisorTrace, List.mem_cons, List.mem_append] at hmem
    rcases hmem with h1 | h2 | h3
    · subst h1; rcases hor with h | h <;> cases h
    · obtain ⟨n, rfl⟩ := registrationLoop_only_registers _ _ _ a h2
      rcases hor with h | h <;> cases h
    · rcases hor with h | h <;> subst h <;> simp_all
  rw [htr]
  refine ⟨rfl, fun hmem => ?_, fun hmem => ?_⟩
  · rcases List.mem_cons.mp hmem with h1 | h1
    · cases h1
    · exact hsup _ h1 (Or.inl rfl)
  · rcases List.mem_cons.mp hmem with h1 | h1
    · cases h1
    · exact hsup _ h1 (Or.inr rfl)

/-- C5 witness: on the base fixture with leader election disabled, no
leader-election client is ever built. -/
theorem no_leader_election_when_disabled_witness :
    Action.buildLeaderElectionClient ∉ RunTrace extOK optsBase ["issuers"] :=
  (no_leader_election_when_disabled extOK optsBase ["issuers"] ctxBase ()
    rfl rfl).2.1

/-- C1 counterexample: with the "issuers" and "certificates" controllers
started, the "issuers" worker returning a nil error while the metrics and
"certificates" workers are still running leaves the process running the
remaining workers — the supervisor does not log fatally or terminate at
that point. -/
theorem clean_worker_exit_does_not_terminate :
    (workerReturnStep
        (initialSupState ["issuers", "certificates"] "" ["issuers", "certificates"])
        "issuers" none).status = ProcStatus.running ∧
    (workerReturnStep
        (initialSupState ["issuers", "certificates"] "" ["issuers", "certificates"])
        "issuers" none).running = ["metrics", "certificates"] := by
  decide

/-- C1 (amended): if a started worker's runnable returns a non-nil error,
the supervisor logs fatally and terminates immediately, even while other
workers are still running; if it returns a nil error while other workers
are still running, the supervisor keeps running the remaining workers, and
only after every started worker has returned does it log fatally and
terminate. -/
theorem worker_exit_fatal_policy (s : SupState) (n : String) (res : Option String)
    (hs : s.status = ProcStatus.running) (hn : s.running.contains n = true) :
    (∀ e, res = some e →
      (workerReturnStep s n res).status =
        ProcStatus.fatal ("error running " ++ n ++ " controller: " ++ e)) ∧
    (res = none → (s.running.erase n).isEmpty = false →
      workerReturnStep s n res =
        { running := s.running.erase n, status := ProcStatus.running }) ∧
    (res = none → (s.running.erase n).isEmpty = true →
      (workerReturnStep s n res).status = ProcStatus.fatal "Control loops exited") := by
  have hmem : n ∈ s.running := List.elem_iff.mp hn
  refine ⟨?_, ?_, ?_⟩
  · intro e hres
    subst hres
    simp [workerReturnStep, hs, hn, hmem]
  · intro hres hne
    subst hres
    simp [workerReturnStep, hs, hn, hmem, hne]
  · intro hres hemp
    subst hres
    simp [workerReturnStep, hs, hn, hmem, hemp]

/-- C1 witness: a worker returning a non-nil error while another worker is
still running terminates the process fatally. -/
theorem worker_exit_fatal_policy_witness :
    (workerReturnStep { running := ["issuers", "certificates"], status := ProcStatus.running }
        "issuers" (some "queue shutdown")).status =
      ProcStatus.fatal ("error running " ++ "issuers" ++ " controller: " ++ "queue shutdown") :=
  (worker_exit_fatal_policy
      { running := ["issuers", "certificates"], status := ProcStatus.running }
      "issuers" (some "queue shutdown") rfl (by decide)).1 "queue shutdown" rfl

/-- C6: whenever leadership is lost, the `OnStoppedLeading` callback the
elector was configured with is exactly one fatal log, so its effect on a
live process is unconditional fatal termination — the process never
continues in a non-leader mode. -/
theorem leadership_lost_terminates (opts : ControllerOptions) (hostname : String) :
    (startLeaderElection opts hostname).Callbacks.OnStoppedLeading =
      [Action.fatalLog "leaderelection lost"] ∧
    onLeadershipLost (startLeaderElection opts hostname) =
      ProcStatus.fatal "leaderelection lost" :=
  ⟨rfl, rfl⟩

/-- C8: for any state of the shared lease store and any instant, at most
one instance is `Leading` — holds the active, non-expired lease — at that
instant. -/
theorem lease_mutual_exclusion (leaseDuration : Nat)
    (store : Option LeaderElectionRecord) (idA idB : String) (now : Nat)
    (hA : Leading leaseDuration store idA now)
    (hB : Leading leaseDuration store idB now) :
    idA = idB := by
  obtain ⟨rA, hsA, hidA, -⟩ := hA
  obtain ⟨rB, hsB, hidB, -⟩ := hB
  rw [hsA] at hsB
  cases Option.some.inj hsB
  rw [← hidA, ← hidB]

/-- C8 witness: with replica-a holding a fresh lease, replica-a is leading
and any instance leading at the same instant is replica-a itself. -/
theorem lease_mutual_exclusion_witness :
    Leading 10 (some { HolderIdentity := "replica-a", AcquireTime := 0, RenewTime := 0 })
      "replica-a" 5 ∧
    ("replica-a" : String) = "replica-a" :=
  ⟨⟨{ HolderIdentity := "replica-a", AcquireTime := 0, RenewTime := 0 }, rfl, rfl, by decide⟩,
    lease_mutual_exclusion 10
      (some { HolderIdentity := "replica-a", AcquireTime := 0, RenewTime := 0 })
      "replica-a" "replica-a" 5
      ⟨{ HolderIdentity := "replica-a", AcquireTime := 0, RenewTime := 0 }, rfl, rfl, by decide⟩
      ⟨{ HolderIdentity := "replica-a", AcquireTime := 0, RenewTime := 0 }, rfl, rfl, by decide⟩⟩

end CertManager
